import Mathlib

/-!
Formal model of the Novellica control panel server supervisor
(`control_panel.py`).  The `ServerManager` class and the `ControlPanel`
tick loop are embedded shallowly: every OS / network observation the
Python code makes (`is_pid_alive`, `is_port_in_use`, `Popen.poll`,
`http_health_check`, `psutil` waits) is supplied through an explicit
oracle record, and each method becomes a pure function from the manager
state and the oracle to a result record describing the side effects the
method performs (status-callback calls, log-queue puts, PID-file
writes/removals, spawns, signals).  Statuses and queue sentinels are
kept as the literal strings the Python code uses.
-/

/-- Python truthiness of an optional integer PID (`if self._pid: ...`):
`None` and `0` are falsy, every other integer is truthy. -/
def pyTruthyOpt (o : Option Nat) : Bool :=
  match o with
  | some n => n != 0
  | none => false

/-- Mutable fields of `ServerManager` that the modelled methods consult:
`self._pid`, whether `self.process` (the owned `Popen` handle) is set,
and the `self._starting` flag. -/
structure MgrState where
  pid : Option Nat
  hasProcess : Bool
  starting : Bool
deriving DecidableEq, Repr

/-- Process-level observations: `is_pid_alive` per PID, and whether
`self.process.poll()` returns non-`None` (the owned child has exited). -/
structure ProcOracle where
  alive : Nat → Bool
  pollExited : Bool

/-- `ServerManager.is_running`: the tracked PID is truthy and alive, or
the owned handle exists and `poll()` is `None`. -/
def is_running (st : MgrState) (o : ProcOracle) : Bool :=
  if pyTruthyOpt st.pid && o.alive (st.pid.getD 0) then true
  else if st.hasProcess && !o.pollExited then true
  else false

/-! ## State Store (`read_pid`) -/

/-- Python values that `json.load` can produce, as seen by `read_pid`.
A JSON `null` inside an object is stored as Python `None` (`pyNone`). -/
inductive PyVal where
  | pyNone : PyVal
  | pyBool : Bool → PyVal
  | pyInt : Int → PyVal
  | pyStr : String → PyVal
  | pyList : List PyVal → PyVal
  | pyDict : List (String × PyVal) → PyVal

/-- Content of the PID file as `read_pid` encounters it: the file is
missing (`open` raises `FileNotFoundError`), its content is not valid
JSON (`json.load` raises `JSONDecodeError`), or it parses to a Python
value. -/
inductive FileContent where
  | missing : FileContent
  | invalidJson : FileContent
  | json : PyVal → FileContent

/-- Outcome of `read_pid`: the function returns a Python value, or an
exception escapes it uncaught. -/
inductive ReadPidResult where
  | ret : PyVal → ReadPidResult
  | raised : ReadPidResult

/-- Python `dict.get(key)`: the stored value, or `None` when the key is
absent. -/
def dictGet (d : List (String × PyVal)) (k : String) : PyVal :=
  match d.lookup k with
  | some v => v
  | none => PyVal.pyNone

/-- `read_pid`: open and `json.load` the PID file, returning
`data.get("pid")`; `FileNotFoundError`, `JSONDecodeError` and `KeyError`
are caught and give `None`.  `dict.get` never raises `KeyError`, but on
a non-dict top-level value `data.get` raises `AttributeError`, which is
not in the caught tuple and escapes. -/
def read_pid (c : FileContent) : ReadPidResult :=
  match c with
  | FileContent.missing => ReadPidResult.ret PyVal.pyNone
  | FileContent.invalidJson => ReadPidResult.ret PyVal.pyNone
  | FileContent.json v =>
    match v with
    | PyVal.pyDict d => ReadPidResult.ret (dictGet d "pid")
    | _ => ReadPidResult.raised

/-! ## Adoption detection (`ServerManager._detect_existing`) -/

/-- Observations consumed by `_detect_existing`: the `read_pid()` result
(the claims quantify over records naming an integer PID or no usable
record, so it is given as `Option Nat`), `is_pid_alive`,
`is_port_in_use(SERVER_PORT)` and `find_port_owner(SERVER_PORT)`. -/
structure DetectOracle where
  filePid : Option Nat
  alive : Nat → Bool
  portInUse : Bool
  portOwner : Option Nat

/-- Side effects of one `_detect_existing` run: the PID adopted into
`self._pid` (if any), the `self._status(...)` calls in order, whether
`remove_pid()` ran, the `self._log_queue.put` sentinels, and the
`self._log` lines. -/
structure DetectResult where
  adoptedPid : Option Nat
  statusCalls : List String
  removedPidFile : Bool
  queueEvents : List String
  logs : List String
deriving DecidableEq, Repr

/-- Python `str(x)` on an optional PID, as f-strings render it. -/
def pyShowOptNat (o : Option Nat) : String :=
  match o with
  | some n => toString n
  | none => "None"

/-- `ServerManager._detect_existing`: adopt the persisted PID when it is
truthy, alive and the port is listening; otherwise clean a stale record,
warn about a foreign port owner, and report stopped. -/
def detect_existing (o : DetectOracle) : DetectResult :=
  let aliveRec := pyTruthyOpt o.filePid && o.alive (o.filePid.getD 0)
  if aliveRec && o.portInUse then
    { adoptedPid := o.filePid
      statusCalls := ["running"]
      removedPidFile := false
      queueEvents := []
      logs := ["Detected existing server (PID " ++ pyShowOptNat o.filePid ++ ") on port 5000."] }
  else
    let logs1 : List String :=
      if aliveRec then
        ["PID " ++ pyShowOptNat o.filePid ++ " alive but port 5000 not open. Treating as stale."]
      else []
    let removed := o.filePid.isSome
    let logs2 := logs1 ++
      (if removed then ["Cleaning up stale PID file (PID " ++ pyShowOptNat o.filePid ++ ")."] else [])
    let logs3 := logs2 ++
      (if o.portInUse then
        ["⚠ Port 5000 is in use by another process (PID " ++ pyShowOptNat o.portOwner ++
          "). Start will fail until that process is stopped."]
       else [])
    { adoptedPid := none
      statusCalls := ["stopped"]
      removedPidFile := removed
      queueEvents := if o.portInUse then ["__PORT_BLOCKED__"] else []
      logs := logs3 }

/-! ## Start (`ServerManager.start`) -/

/-- Outcome of the `subprocess.Popen` call in `start`. -/
inductive SpawnOutcome where
  | ok : Nat → SpawnOutcome
  | fileNotFound : SpawnOutcome
  | permissionError : String → SpawnOutcome
  | otherError : String → SpawnOutcome

/-- Observations consumed by `start`: the process oracle feeding
`is_running`, `is_port_in_use(SERVER_PORT)`,
`find_port_owner(SERVER_PORT)` and the spawn outcome. -/
structure StartOracle where
  proc : ProcOracle
  portInUse : Bool
  portOwner : Option Nat
  spawn : SpawnOutcome

/-- Side effects of one `start` call: whether `Popen` ran, the PID
passed to `write_pid` (if any), the `self._status` calls in order, queue
sentinels, log lines, and the resulting manager state. -/
structure StartResult where
  spawned : Bool
  pidWritten : Option Nat
  statusCalls : List String
  queueEvents : List String
  logs : List String
  finalState : MgrState
deriving DecidableEq, Repr

/-- `ServerManager.start`: no-op when `is_running`; reject with
`error` + `__PORT_BLOCKED__` when the port is occupied; otherwise set
`_starting`, report `starting`, spawn, persist the PID and launch the
reader and readiness workers (spawn failures are caught per exception
class and reported as `error`). -/
def ServerManager.start (st : MgrState) (o : StartOracle) : StartResult :=
  if is_running st o.proc then
    { spawned := false, pidWritten := none, statusCalls := [], queueEvents := []
      logs := ["Server is already running."], finalState := st }
  else if o.portInUse then
    { spawned := false, pidWritten := none, statusCalls := ["error"]
      queueEvents := ["__PORT_BLOCKED__"]
      logs := ["✗ Port 5000 is already in use (PID " ++ pyShowOptNat o.portOwner ++ "). Cannot start."]
      finalState := st }
  else
    match o.spawn with
    | SpawnOutcome.ok p =>
      { spawned := true, pidWritten := some p
        statusCalls := ["starting"], queueEvents := []
        logs := ["Starting Novellica server...",
                 "Process spawned (PID " ++ toString p ++ "). Waiting for HTTP 200..."]
        finalState := { pid := some p, hasProcess := true, starting := true } }
    | SpawnOutcome.fileNotFound =>
      { spawned := false, pidWritten := none
        statusCalls := ["starting", "error"], queueEvents := []
        logs := ["Starting Novellica server...", "✗ Python executable not found."]
        finalState := { st with starting := false } }
    | SpawnOutcome.permissionError e =>
      { spawned := false, pidWritten := none
        statusCalls := ["starting", "error"], queueEvents := []
        logs := ["Starting Novellica server...", "✗ Permission error: " ++ e]
        finalState := { st with starting := false } }
    | SpawnOutcome.otherError e =>
      { spawned := false, pidWritten := none
        statusCalls := ["starting", "error"], queueEvents := []
        logs := ["Starting Novellica server...", "✗ Failed to start: " ++ e]
        finalState := { st with starting := false } }

/-! ## Readiness poller (`ServerManager._wait_for_ready`) -/

/-- What one iteration of the readiness loop observes:
`self.process.poll() is not None` (the spawned child has exited) and the
`http_health_check(SERVER_URL)` result. -/
structure ReadyObs where
  procExited : Bool
  healthOk : Bool

/-- Outcome of the `_wait_for_ready` worker: the `self._log_queue.put`
calls in order, and the final value of `self._starting`. -/
structure ReadyResult where
  events : List String
  finalStarting : Bool
deriving DecidableEq, Repr

/-- Log line the poller emits when the spawned process exits before a
successful health probe. -/
def earlyExitMsg : String := "✗ Server process exited before becoming ready."

/-- Log line the poller emits when the 30 s startup deadline passes. -/
def timeoutMsg : String := "✗ Server did not respond within 30s. Check logs."

/-- Log line the poller emits on a successful health probe. -/
def readyMsg : String := "✓ Server ready at http://localhost:5000"

/-- `ServerManager._wait_for_ready`: loop while the wall clock is before
`deadline` (modelled as `fuel` remaining iterations, about 60 at 0.5 s a
poll); each iteration first aborts if the child exited, then probes
health; falling out of the loop emits the timeout log and
`__TIMEOUT__`.  The early-exit arm emits only its log line and returns
(the Python comment defers status handling to an `on_process_end` that
does not exist in the file); no status callback is invoked anywhere in
this worker. -/
def wait_for_ready (fuel : Nat) (obs : Nat → ReadyObs) (i : Nat) : ReadyResult :=
  match fuel with
  | 0 => { events := [timeoutMsg, "__TIMEOUT__"], finalStarting := false }
  | Nat.succ fuel =>
    if (obs i).procExited then
      { events := [earlyExitMsg], finalStarting := false }
    else if (obs i).healthOk then
      { events := [readyMsg, "__READY__"], finalStarting := false }
    else
      wait_for_ready fuel obs (i + 1)

/-! ## Stop (`ServerManager.stop` and its `_do_stop` worker) -/

/-- Observations the `_do_stop` worker makes, in program order: whether
`proc.poll()` is non-`None` at worker time, whether the owned
`proc.wait(timeout=5)` times out, `is_pid_alive(pid)` after that
timeout, whether `proc.kill()` / `proc.wait(timeout=3)` raises, whether
`is_pid_alive(pid)` holds for the adopted branch, whether the adopted
`p.wait(timeout=5)` times out, `is_pid_alive(pid)` after the adopted
timeout, and whether the adopted branch raises a non-timeout
exception. -/
structure StopOracle where
  pollExitedAtWorker : Bool
  gracefulWaitTimesOut : Bool
  aliveAfterGraceful : Bool
  killRaises : Bool
  aliveAtWorker : Bool
  adoptedWaitTimesOut : Bool
  adoptedAliveAfterWait : Bool
  adoptedInnerRaises : Bool

/-- Side effects of the `_do_stop` worker: the `self._log_queue.put`
calls in order (ending with the sentinel), whether `remove_pid()` ran,
and the final `self._pid` / `self.process` fields. -/
structure StopWorkerResult where
  events : List String
  removedPidFile : Bool
  finalPid : Option Nat
  finalHasProcess : Bool
deriving DecidableEq, Repr

/-- The `_do_stop` worker body: owned-handle path (graceful wait, then
verified force kill), adopted-PID path (psutil terminate/wait/kill with
its own exception handler), or nothing when neither applies; any escaped
exception is caught by the outer handler; the `finally` block always
clears the PID file, `self._pid` and `self.process` and puts
`__STOPPED__`. -/
def do_stop (pid : Option Nat) (hasProc : Bool) (o : StopOracle) : StopWorkerResult :=
  let branchEvents : List String :=
    if hasProc && !o.pollExitedAtWorker then
      if !o.gracefulWaitTimesOut then ["Server stopped gracefully."]
      else if pyTruthyOpt pid && o.aliveAfterGraceful then
        if o.killRaises then
          ["Graceful stop timed out. Force killing...", "Error during stop: exception"]
        else ["Graceful stop timed out. Force killing..."]
      else ["Process already exited."]
    else if pyTruthyOpt pid && o.aliveAtWorker then
      let head := "Terminating adopted process PID " ++ pyShowOptNat pid ++ "..."
      if o.adoptedInnerRaises then [head, "Error stopping adopted process: exception"]
      else if !o.adoptedWaitTimesOut then [head, "Adopted process stopped."]
      else if o.adoptedAliveAfterWait then [head, "Adopted process force-killed."]
      else [head]
    else []
  { events := branchEvents ++ ["__STOPPED__"]
    removedPidFile := true
    finalPid := none
    finalHasProcess := false }

/-- Outcome of a `stop` call: rejected as a logged no-op, or a
background worker launched after the `stopping` status report. -/
inductive StopCall where
  | noop : List String → StopCall
  | worker : List String → List String → StopWorkerResult → StopCall
deriving DecidableEq, Repr

/-- `ServerManager.stop`: reject when not `is_running`; otherwise report
`stopping`, log, and hand `self._pid` / `self.process` to the `_do_stop`
worker thread. -/
def ServerManager.stop (st : MgrState) (po : ProcOracle) (o : StopOracle) : StopCall :=
  if !is_running st po then
    StopCall.noop ["Server is not running."]
  else
    StopCall.worker ["stopping"] ["Stopping server..."] (do_stop st.pid st.hasProcess o)

/-! ## Restart (`ServerManager.restart` worker) -/

/-- Actions the `_do_restart` worker can take, as a trace alphabet.
`invokeStart` is the action the worker would take if it called
`self.start()` itself; it is part of the alphabet so that its absence
from every trace is statable. -/
inductive RestartStep where
  | invokeStop : RestartStep
  | sleepHalf : RestartStep
  | emit : String → RestartStep
  | invokeStart : RestartStep
deriving DecidableEq, Repr

/-- The `for _ in range(20)` wait of `_do_restart`: each iteration
checks `self.is_running` (observed at poll index `i`) and breaks, or
sleeps 0.5 s. -/
def restartWaitLoop (fuel : Nat) (runningAt : Nat → Bool) (i : Nat) : List RestartStep :=
  match fuel with
  | 0 => []
  | Nat.succ fuel =>
    if !runningAt i then []
    else RestartStep.sleepHalf :: restartWaitLoop fuel runningAt (i + 1)

/-- `ServerManager.restart`'s `_do_restart` worker: if running, invoke
`stop` and poll `is_running` up to 20 times (10 s) with 0.5 s sleeps;
then sleep 0.5 s and put `__DO_START__` on the queue.  It never calls
`self.start()` itself. -/
def do_restart (running0 : Bool) (runningAt : Nat → Bool) : List RestartStep :=
  (if running0 then RestartStep.invokeStop :: restartWaitLoop 20 runningAt 0 else [])
    ++ [RestartStep.sleepHalf, RestartStep.emit "__DO_START__"]

/-! ## Passive health re-check (`ServerManager.health_check`) -/

/-- Result of one `health_check` call: the returned status string and
the fields it may clean up (`remove_pid()`, `self._pid`,
`self.process`).  The function consults only `self._starting`,
`self._pid`, `is_pid_alive` and `self.process.poll()`; it takes no
network oracle because the code performs no network call. -/
structure HealthResult where
  ret : String
  finalPid : Option Nat
  finalHasProcess : Bool
  removedPidFile : Bool
deriving DecidableEq, Repr

/-- `ServerManager.health_check`: `starting` while `_starting`;
`running` when the tracked PID is truthy and alive; a truthy tracked PID
that is not alive means the process died externally — clean up and
report `stopped`; an owned handle whose `poll()` is non-`None` is
dropped; otherwise `stopped`. -/
def ServerManager.health_check (st : MgrState) (po : ProcOracle) : HealthResult :=
  if st.starting then
    { ret := "starting", finalPid := st.pid, finalHasProcess := st.hasProcess
      removedPidFile := false }
  else if pyTruthyOpt st.pid && po.alive (st.pid.getD 0) then
    { ret := "running", finalPid := st.pid, finalHasProcess := st.hasProcess
      removedPidFile := false }
  else if pyTruthyOpt st.pid then
    { ret := "stopped", finalPid := none, finalHasProcess := false
      removedPidFile := true }
  else if st.hasProcess && po.pollExited then
    { ret := "stopped", finalPid := st.pid, finalHasProcess := false
      removedPidFile := false }
  else
    { ret := "stopped", finalPid := st.pid, finalHasProcess := st.hasProcess
      removedPidFile := false }

/-! ## Process-tree kill (`ServerManager._kill_process_tree`) -/

/-- Signals and waits the tree killer issues, as a trace alphabet:
`term p` is `terminate()` on PID `p`, `forceKill p` is `kill()` on PID
`p`, `waitProcs ps t` is `psutil.wait_procs(ps, timeout=t)`. -/
inductive KillAction where
  | term : Nat → KillAction
  | forceKill : Nat → KillAction
  | waitProcs : List Nat → Nat → KillAction
deriving DecidableEq, Repr

/-- `ServerManager._kill_process_tree`: snapshot the recursive children
of the root, terminate the parent first and then every child, wait 5 s
on the whole family, force-kill exactly the members `wait_procs` reports
still alive, and, when any survived, wait 3 s more on them.
`children` is the `proc.children(recursive=True)` snapshot (empty when
enumeration raises) and `aliveAfterGrace` tells which family members
`wait_procs` returns in its `alive` list.  `self._log` lines carry no
control effect and are elided. -/
def kill_process_tree (rootPid : Nat) (children : List Nat)
    (aliveAfterGrace : Nat → Bool) : List KillAction :=
  let fam := rootPid :: children
  let aliveOnes := fam.filter aliveAfterGrace
  KillAction.term rootPid :: children.map KillAction.term
    ++ [KillAction.waitProcs fam 5]
    ++ aliveOnes.map KillAction.forceKill
    ++ (if aliveOnes.isEmpty then [] else [KillAction.waitProcs aliveOnes 3])

/-! ## Control-loop event dispatch (`ControlPanel._tick`) -/

/-- Side effects `_tick` applies while draining one queue line. -/
inductive TickAction where
  | setStatus : String → TickAction
  | hideKillBtn : TickAction
  | openBrowser : TickAction
  | invokeStart : TickAction
  | showKillBtn : TickAction
  | logLine : String → TickAction
deriving DecidableEq, Repr

/-- The per-line dispatch of `ControlPanel._tick`: the six recognized
sentinels map to status transitions and one-shot actions; any other
string is rendered as a log line. -/
def dispatch_line (line : String) : List TickAction :=
  if line == "__READY__" then
    [TickAction.setStatus "running", TickAction.hideKillBtn, TickAction.openBrowser]
  else if line == "__TIMEOUT__" then [TickAction.setStatus "error"]
  else if line == "__STOPPED__" then [TickAction.setStatus "stopped"]
  else if line == "__DO_START__" then [TickAction.invokeStart]
  else if line == "__PORT_BLOCKED__" then [TickAction.showKillBtn]
  else if line == "__PORT_FREE__" then
    [TickAction.hideKillBtn,
     TickAction.logLine "✓ Port is now free. You can start the server.",
     TickAction.setStatus "stopped"]
  else [TickAction.logLine line]

/-! ## Claim theorems -/

/-- Claim C3: for every run of adoption detection in which the persisted
PID record names a PID that is not alive, detection deletes the
persisted record file and reports status `stopped`, never `running`. -/
theorem detect_dead_pid_cleans_and_stops (o : DetectOracle) (p : Nat)
    (hp : o.filePid = some p) (hd : o.alive p = false) :
    (detect_existing o).removedPidFile = true ∧
    (detect_existing o).statusCalls = ["stopped"] ∧
    (detect_existing o).adoptedPid = none := by
  unfold detect_existing
  simp [hp, pyTruthyOpt, hd]

/-- Concrete run of the C3 theorem: record names PID 4242, which is not
alive; detection removes the file and reports stopped. -/
theorem detect_dead_pid_cleans_and_stops_witness :
    (detect_existing { filePid := some 4242, alive := fun _ => false,
                       portInUse := false, portOwner := none }).removedPidFile = true ∧
    (detect_existing { filePid := some 4242, alive := fun _ => false,
                       portInUse := false, portOwner := none }).statusCalls = ["stopped"] ∧
    (detect_existing { filePid := some 4242, alive := fun _ => false,
                       portInUse := false, portOwner := none }).adoptedPid = none :=
  detect_dead_pid_cleans_and_stops _ 4242 rfl rfl

/-- Claim C4: for every run of adoption detection in which the persisted
PID names a live process but the well-known port is not listening,
detection treats the record as stale (removes it, does not adopt the
PID) and reports `stopped`, not `running`. -/
theorem detect_alive_pid_port_closed_not_adopted (o : DetectOracle) (p : Nat)
    (hp : o.filePid = some p) (ha : o.alive p = true) (hport : o.portInUse = false) :
    (detect_existing o).adoptedPid = none ∧
    (detect_existing o).statusCalls = ["stopped"] ∧
    (detect_existing o).removedPidFile = true := by
  unfold detect_existing
  simp [hp, pyTruthyOpt, ha, hport]

/-- Concrete run of the C4 theorem: record names live PID 4242 but the
port is closed; the record is treated as stale and status is stopped. -/
theorem detect_alive_pid_port_closed_not_adopted_witness :
    (detect_existing { filePid := some 4242, alive := fun _ => true,
                       portInUse := false, portOwner := none }).adoptedPid = none ∧
    (detect_existing { filePid := some 4242, alive := fun _ => true,
                       portInUse := false, portOwner := none }).statusCalls = ["stopped"] ∧
    (detect_existing { filePid := some 4242, alive := fun _ => true,
                       portInUse := false, portOwner := none }).removedPidFile = true :=
  detect_alive_pid_port_closed_not_adopted _ 4242 rfl rfl rfl

/-- Claim C6, counterexample: the claim says every malformed PID-file
content makes `read_pid` return `None` rather than raise, but a file
holding valid JSON whose top level is not an object (here the JSON
number `3`) makes `data.get("pid")` raise `AttributeError`, which is not
in the caught exception tuple; and a JSON object with a non-integer pid
value (here the string `"abc"`) is returned as-is, not as `None`. -/
theorem read_pid_raises_on_nonobject_json :
    read_pid (FileContent.json (PyVal.pyInt 3)) = ReadPidResult.raised ∧
    read_pid (FileContent.json (PyVal.pyDict [("pid", PyVal.pyStr "abc")])) =
      ReadPidResult.ret (PyVal.pyStr "abc") :=
  ⟨rfl, rfl⟩

/-- Claim C6 (amended): for a missing file, a file whose content is not
valid JSON, or a valid top-level JSON object whose `pid` entry is absent
or null, `read_pid` returns `None` rather than raising. -/
theorem read_pid_none_on_missing_or_invalid (c : FileContent)
    (h : c = FileContent.missing ∨ c = FileContent.invalidJson ∨
      ∃ d, c = FileContent.json (PyVal.pyDict d) ∧
        (d.lookup "pid" = none ∨ d.lookup "pid" = some PyVal.pyNone)) :
    read_pid c = ReadPidResult.ret PyVal.pyNone := by
  rcases h with h | h | ⟨d, hd, hl⟩
  · rw [h]; rfl
  · rw [h]; rfl
  · rw [hd]
    show ReadPidResult.ret (dictGet d "pid") = ReadPidResult.ret PyVal.pyNone
    unfold dictGet
    rcases hl with hl | hl <;> rw [hl]

/-- Concrete run of the C6 amended theorem: a missing PID file reads as
`None`. -/
theorem read_pid_none_on_missing_or_invalid_witness :
    read_pid FileContent.missing = ReadPidResult.ret PyVal.pyNone :=
  read_pid_none_on_missing_or_invalid FileContent.missing (Or.inl rfl)

/-- Claim C10: for every internal manager state, the passive health
re-check returns one of exactly `starting`, `running`, or `stopped` —
never `error` or `stopping`. -/
theorem health_check_status_range (st : MgrState) (po : ProcOracle) :
    ((ServerManager.health_check st po).ret = "starting" ∨
     (ServerManager.health_check st po).ret = "running" ∨
     (ServerManager.health_check st po).ret = "stopped") ∧
    (ServerManager.health_check st po).ret ≠ "error" ∧
    (ServerManager.health_check st po).ret ≠ "stopping" := by
  unfold ServerManager.health_check
  split_ifs <;> simp

/-- Claim C5: for every completed Stop on a running process — owned
handle, adopted PID, already gone, or an exception during termination —
the background worker always clears the persisted PID record, resets
the tracked PID and handle to absent, and emits `__STOPPED__` (as the
final queue put of the worker). -/
theorem stop_on_running_always_converges (st : MgrState) (po : ProcOracle) (o : StopOracle)
    (h : is_running st po = true) :
    ServerManager.stop st po o =
      StopCall.worker ["stopping"] ["Stopping server..."] (do_stop st.pid st.hasProcess o) ∧
    (do_stop st.pid st.hasProcess o).removedPidFile = true ∧
    (do_stop st.pid st.hasProcess o).finalPid = none ∧
    (do_stop st.pid st.hasProcess o).finalHasProcess = false ∧
    (do_stop st.pid st.hasProcess o).events.getLast? = some "__STOPPED__" := by
  refine ⟨by simp [ServerManager.stop, h], ?_, ?_, ?_, ?_⟩
  · simp [do_stop]
  · simp [do_stop]
  · simp [do_stop]
  · show ((do_stop st.pid st.hasProcess o).events).getLast? = some "__STOPPED__"
    unfold do_stop
    exact List.getLast?_concat _

/-- Concrete run of the C5 theorem: an owned running process whose
graceful wait succeeds; the worker removes the PID file, clears the
fields and ends its queue output with `__STOPPED__`. -/
theorem stop_on_running_always_converges_witness :
    ServerManager.stop { pid := some 7, hasProcess := true, starting := false }
        { alive := fun p => p == 7, pollExited := false }
        { pollExitedAtWorker := false, gracefulWaitTimesOut := false,
          aliveAfterGraceful := false, killRaises := false, aliveAtWorker := false,
          adoptedWaitTimesOut := false, adoptedAliveAfterWait := false,
          adoptedInnerRaises := false } =
      StopCall.worker ["stopping"] ["Stopping server..."]
        (do_stop (some 7) true
          { pollExitedAtWorker := false, gracefulWaitTimesOut := false,
            aliveAfterGraceful := false, killRaises := false, aliveAtWorker := false,
            adoptedWaitTimesOut := false, adoptedAliveAfterWait := false,
            adoptedInnerRaises := false }) ∧
    (do_stop (some 7) true
      { pollExitedAtWorker := false, gracefulWaitTimesOut := false,
        aliveAfterGraceful := false, killRaises := false, aliveAtWorker := false,
        adoptedWaitTimesOut := false, adoptedAliveAfterWait := false,
        adoptedInnerRaises := false }).removedPidFile = true :=
  let r := stop_on_running_always_converges
    { pid := some 7, hasProcess := true, starting := false }
    { alive := fun p => p == 7, pollExited := false }
    { pollExitedAtWorker := false, gracefulWaitTimesOut := false,
      aliveAfterGraceful := false, killRaises := false, aliveAtWorker := false,
      adoptedWaitTimesOut := false, adoptedAliveAfterWait := false,
      adoptedInnerRaises := false } (by decide)
  ⟨r.1, r.2.1⟩

/-- Claim C2, counterexample: when the manager tracks an alive PID (here
an adopted PID 7) while the port is occupied by a foreign PID 99 that
the supervisor does not manage, `start` takes the `is_running` early
return: nothing is spawned (as the claim says) but the status does not
transition to `error` and no `__PORT_BLOCKED__` sentinel is emitted,
contradicting the claim's universal conclusion. -/
theorem start_no_error_when_already_running_with_blocked_port :
    ({ proc := { alive := fun p => p == 7, pollExited := true },
       portInUse := true, portOwner := some 99,
       spawn := SpawnOutcome.ok 1234 } : StartOracle).portInUse = true ∧
    ({ proc := { alive := fun p => p == 7, pollExited := true },
       portInUse := true, portOwner := some 99,
       spawn := SpawnOutcome.ok 1234 } : StartOracle).portOwner = some 99 ∧
    ((99 : Nat) ≠ 7) ∧
    (ServerManager.start { pid := some 7, hasProcess := false, starting := false }
      { proc := { alive := fun p => p == 7, pollExited := true },
        portInUse := true, portOwner := some 99,
        spawn := SpawnOutcome.ok 1234 }).spawned = false ∧
    (ServerManager.start { pid := some 7, hasProcess := false, starting := false }
      { proc := { alive := fun p => p == 7, pollExited := true },
        portInUse := true, portOwner := some 99,
        spawn := SpawnOutcome.ok 1234 }).statusCalls = [] ∧
    (ServerManager.start { pid := some 7, hasProcess := false, starting := false }
      { proc := { alive := fun p => p == 7, pollExited := true },
        portInUse := true, portOwner := some 99,
        spawn := SpawnOutcome.ok 1234 }).queueEvents = [] := by
  decide

/-- Claim C2 (amended): for every call to Start made while the manager's
`is_running` check is false and the well-known port is occupied, no
process is spawned, no PID is persisted, the status transitions to
`error`, the `__PORT_BLOCKED__` sentinel is emitted, and the manager
state is unchanged. -/
theorem start_port_blocked_rejects (st : MgrState) (o : StartOracle)
    (h1 : is_running st o.proc = false) (h2 : o.portInUse = true) :
    (ServerManager.start st o).spawned = false ∧
    (ServerManager.start st o).pidWritten = none ∧
    (ServerManager.start st o).statusCalls = ["error"] ∧
    (ServerManager.start st o).queueEvents = ["__PORT_BLOCKED__"] ∧
    (ServerManager.start st o).finalState = st := by
  unfold ServerManager.start
  simp [h1, h2]

/-- Concrete run of the C2 amended theorem: nothing tracked, port
occupied by PID 99 — start spawns nothing, reports `error` and emits
`__PORT_BLOCKED__`. -/
theorem start_port_blocked_rejects_witness :
    (ServerManager.start { pid := none, hasProcess := false, starting := false }
      { proc := { alive := fun _ => false, pollExited := true },
        portInUse := true, portOwner := some 99,
        spawn := SpawnOutcome.ok 1234 }).spawned = false ∧
    (ServerManager.start { pid := none, hasProcess := false, starting := false }
      { proc := { alive := fun _ => false, pollExited := true },
        portInUse := true, portOwner := some 99,
        spawn := SpawnOutcome.ok 1234 }).statusCalls = ["error"] ∧
    (ServerManager.start { pid := none, hasProcess := false, starting := false }
      { proc := { alive := fun _ => false, pollExited := true },
        portInUse := true, portOwner := some 99,
        spawn := SpawnOutcome.ok 1234 }).queueEvents = ["__PORT_BLOCKED__"] :=
  let r := start_port_blocked_rejects
    { pid := none, hasProcess := false, starting := false }
    { proc := { alive := fun _ => false, pollExited := true },
      portInUse := true, portOwner := some 99, spawn := SpawnOutcome.ok 1234 }
    (by decide) rfl
  ⟨r.1, r.2.2.1, r.2.2.2.1⟩

/-- Claim C9, counterexample: with the `_starting` flag set (as it is
throughout a start attempt), a tracked PID 5 whose process is not alive
does not make `health_check` report `stopped` or clear anything — the
first branch returns `starting` and leaves the PID record and tracked
PID in place, contradicting the claim's quantification over every
invocation with a tracked dead PID. -/
theorem health_check_starting_masks_dead_pid :
    ({ pid := some 5, hasProcess := true, starting := true } : MgrState).pid = some 5 ∧
    ({ alive := fun _ => false, pollExited := true } : ProcOracle).alive 5 = false ∧
    (ServerManager.health_check { pid := some 5, hasProcess := true, starting := true }
      { alive := fun _ => false, pollExited := true }).ret = "starting" ∧
    (ServerManager.health_check { pid := some 5, hasProcess := true, starting := true }
      { alive := fun _ => false, pollExited := true }).removedPidFile = false ∧
    (ServerManager.health_check { pid := some 5, hasProcess := true, starting := true }
      { alive := fun _ => false, pollExited := true }).finalPid = some 5 := by
  decide

/-- Claim C9 (amended): for every invocation of the passive health
re-check while the manager is not in its starting phase and a truthy
(nonzero) PID is tracked whose process is no longer alive, the check —
which consults only process liveness, no network — reports `stopped`,
clears the persisted PID record, and resets the tracked PID and handle
to absent. -/
theorem health_check_detects_external_death (st : MgrState) (po : ProcOracle) (p : Nat)
    (hs : st.starting = false) (hp : st.pid = some p) (hnz : p ≠ 0)
    (ha : po.alive p = false) :
    (ServerManager.health_check st po).ret = "stopped" ∧
    (ServerManager.health_check st po).removedPidFile = true ∧
    (ServerManager.health_check st po).finalPid = none ∧
    (ServerManager.health_check st po).finalHasProcess = false := by
  unfold ServerManager.health_check
  simp [hs, hp, pyTruthyOpt, hnz, ha]

/-- Concrete run of the C9 amended theorem: tracked PID 5 dead, starting
flag clear — the check reports stopped and clears everything. -/
theorem health_check_detects_external_death_witness :
    (ServerManager.health_check { pid := some 5, hasProcess := true, starting := false }
      { alive := fun _ => false, pollExited := true }).ret = "stopped" ∧
    (ServerManager.health_check { pid := some 5, hasProcess := true, starting := false }
      { alive := fun _ => false, pollExited := true }).removedPidFile = true :=
  let r := health_check_detects_external_death
    { pid := some 5, hasProcess := true, starting := false }
    { alive := fun _ => false, pollExited := true } 5 rfl rfl (by decide) rfl
  ⟨r.1, r.2.1⟩

/-- Claim C1, evaluation at the failing run: the spawned process exits
at iteration 4 of the readiness loop (2 s in, one observation every
0.5 s) before ever answering the health probe.  The poller emits only
its early-exit log line — no `__TIMEOUT__` sentinel and no `__READY__` —
and dispatching everything it emitted through the control loop produces
no `error` status transition, so the run never reaches status `Error`
as the claim requires.  The early-exit log line does differ from the
pure-timeout line, so a distinguishable reason exists, but only as an
opaque log line, not as the claimed sentinel/state transition. -/
theorem wait_ready_early_exit_no_timeout_no_error :
    (wait_for_ready 60 (fun i => { procExited := decide (4 ≤ i), healthOk := false }) 0).events =
      [earlyExitMsg] ∧
    "__TIMEOUT__" ∉
      (wait_for_ready 60 (fun i => { procExited := decide (4 ≤ i), healthOk := false }) 0).events ∧
    "__READY__" ∉
      (wait_for_ready 60 (fun i => { procExited := decide (4 ≤ i), healthOk := false }) 0).events ∧
    TickAction.setStatus "error" ∉
      ((wait_for_ready 60 (fun i => { procExited := decide (4 ≤ i), healthOk := false }) 0).events.flatMap
        dispatch_line) ∧
    earlyExitMsg ≠ timeoutMsg := by
  decide

/-- Helper for claim C8: the bounded-wait loop of the restart worker
emits nothing but sleeps. -/
theorem restartWaitLoop_all_sleep (fuel : Nat) (f : Nat → Bool) (i : Nat) :
    ∀ a ∈ restartWaitLoop fuel f i, a = RestartStep.sleepHalf := by
  induction fuel generalizing i with
  | zero => intro a ha; simp [restartWaitLoop] at ha
  | succ n ih =>
    intro a ha
    unfold restartWaitLoop at ha
    split at ha
    · simp at ha
    · rcases List.mem_cons.mp ha with h | h
      · exact h
      · exact ih (i + 1) a h

/-- Helper for claim C8: the bounded-wait loop runs at most `fuel`
iterations. -/
theorem restartWaitLoop_length_le (fuel : Nat) (f : Nat → Bool) (i : Nat) :
    (restartWaitLoop fuel f i).length ≤ fuel := by
  induction fuel generalizing i with
  | zero => simp [restartWaitLoop]
  | succ n ih =>
    unfold restartWaitLoop
    split
    · simp
    · simpa using Nat.succ_le_succ (ih (i + 1))

/-- Claim C8: for every restart invocation, the background restart
worker never invokes Start itself: its trace contains no `invokeStart`
action, its only queue emission is the `__DO_START__` sentinel, which is
its final action, its bounded wait sleeps at most 21 half-second
intervals (~10 s of polling plus one settling sleep), and the control
loop turns exactly that sentinel into the Start call. -/
theorem restart_defers_start_to_control_loop (r : Bool) (f : Nat → Bool) :
    RestartStep.invokeStart ∉ do_restart r f ∧
    (do_restart r f).getLast? = some (RestartStep.emit "__DO_START__") ∧
    (∀ s, RestartStep.emit s ∈ do_restart r f → s = "__DO_START__") ∧
    (do_restart r f).countP (fun a => a == RestartStep.sleepHalf) ≤ 21 ∧
    dispatch_line "__DO_START__" = [TickAction.invokeStart] := by
  refine ⟨?_, ?_, ?_, ?_, rfl⟩
  · intro hmem
    unfold do_restart at hmem
    rcases List.mem_append.mp hmem with h | h
    · split at h
      · rcases List.mem_cons.mp h with h' | h'
        · exact absurd h' (by decide)
        · exact absurd (restartWaitLoop_all_sleep 20 f 0 _ h') (by decide)
      · simp at h
    · simp at h
  · unfold do_restart
    rw [show ([RestartStep.sleepHalf, RestartStep.emit "__DO_START__"] : List RestartStep) =
          [RestartStep.sleepHalf] ++ [RestartStep.emit "__DO_START__"] from rfl,
        ← List.append_assoc]
    exact List.getLast?_concat _
  · intro s hmem
    unfold do_restart at hmem
    rcases List.mem_append.mp hmem with h | h
    · split at h
      · rcases List.mem_cons.mp h with h' | h'
        · exact absurd h' (by simp)
        · exact absurd (restartWaitLoop_all_sleep 20 f 0 _ h') (by simp)
      · simp at h
    · rcases List.mem_cons.mp h with h' | h'
      · exact absurd h' (by simp)
      · rcases List.mem_singleton.mp h' with h''
        exact (RestartStep.emit.injEq _ _).mp h''.symm |>.symm ▸ rfl
  · unfold do_restart
    rw [List.countP_append]
    have hloop : (restartWaitLoop 20 f 0).countP (fun a => a == RestartStep.sleepHalf) ≤ 20 :=
      le_trans (List.countP_le_length _) (restartWaitLoop_length_le 20 f 0)
    have htail :
        ([RestartStep.sleepHalf, RestartStep.emit "__DO_START__"] : List RestartStep).countP
          (fun a => a == RestartStep.sleepHalf) = 1 := by decide
    rw [htail]
    split
    · rw [List.countP_cons]
      have h0 : (if (RestartStep.invokeStop == RestartStep.sleepHalf) = true then 1 else 0) = 0 :=
        rfl
      rw [h0]
      omega
    · simp

/-- Claim C7: for every invocation of the process-tree kill, the
terminate signal goes to the root first and then to every snapshotted
descendant (the first `1 + |children|` actions are exactly those
terminates); the whole family is then waited on with the 5-second grace
window; a forceful kill is sent to exactly the members reported still
alive after that window, and only after it; and when any member
survived, the final action is the 3-second confirmation wait on the
survivors. -/
theorem kill_tree_eq (rootPid : Nat) (children : List Nat) (aliveAfter : Nat → Bool) :
    kill_process_tree rootPid children aliveAfter =
      (KillAction.term rootPid :: children.map KillAction.term) ++
        ([KillAction.waitProcs (rootPid :: children) 5] ++
          (((rootPid :: children).filter aliveAfter).map KillAction.forceKill ++
            (if ((rootPid :: children).filter aliveAfter).isEmpty then []
             else [KillAction.waitProcs ((rootPid :: children).filter aliveAfter) 3]))) := by
  simp [kill_process_tree]

theorem kill_tree_escalation (rootPid : Nat) (children : List Nat)
    (aliveAfter : Nat → Bool) :
    (kill_process_tree rootPid children aliveAfter).head? =
      some (KillAction.term rootPid) ∧
    (kill_process_tree rootPid children aliveAfter).take (children.length + 1) =
      KillAction.term rootPid :: children.map KillAction.term ∧
    ((kill_process_tree rootPid children aliveAfter).drop (children.length + 1)).head? =
      some (KillAction.waitProcs (rootPid :: children) 5) ∧
    (∀ p, KillAction.forceKill p ∈ kill_process_tree rootPid children aliveAfter ↔
      p ∈ rootPid :: children ∧ aliveAfter p = true) ∧
    (∀ p, KillAction.forceKill p ∉
      (kill_process_tree rootPid children aliveAfter).take (children.length + 2)) ∧
    ((rootPid :: children).filter aliveAfter ≠ [] →
      (kill_process_tree rootPid children aliveAfter).getLast? =
        some (KillAction.waitProcs ((rootPid :: children).filter aliveAfter) 3)) := by
  refine ⟨?_, ?_, ?_, ?_, ?_, ?_⟩
  · rw [kill_tree_eq]
    rfl
  · rw [kill_tree_eq,
        show children.length + 1 =
          (KillAction.term rootPid :: children.map KillAction.term).length by simp]
    exact List.take_left _ _
  · rw [kill_tree_eq,
        show children.length + 1 =
          (KillAction.term rootPid :: children.map KillAction.term).length by simp,
        List.drop_left]
    rfl
  · intro p
    rw [kill_tree_eq]
    simp [List.mem_ite_nil_left, List.mem_filter]
  · intro p hmem
    rw [kill_tree_eq, ← List.append_assoc,
        show children.length + 2 =
          ((KillAction.term rootPid :: children.map KillAction.term) ++
            [KillAction.waitProcs (rootPid :: children) 5]).length by simp,
        List.take_left] at hmem
    simp at hmem
  · intro hne
    have hIsEmpty : ((rootPid :: children).filter aliveAfter).isEmpty = false :=
      List.isEmpty_eq_false.mpr hne
    rw [kill_tree_eq, hIsEmpty]
    rw [List.getLast?_append_of_ne_nil _ (by simp),
        List.getLast?_append_of_ne_nil _ (by simp),
        List.getLast?_append_of_ne_nil _ (by simp)]
    rfl

/-- Concrete run of the C7 theorem: root 10 with children 11 and 12,
of which only 11 survives the grace window; the final action is the
3-second confirmation wait on the survivor. -/
theorem kill_tree_escalation_witness :
    ((10 : Nat) :: [11, 12]).filter (fun p => p == 11) ≠ [] ∧
    (kill_process_tree 10 [11, 12] (fun p => p == 11)).getLast? =
      some (KillAction.waitProcs (((10 : Nat) :: [11, 12]).filter (fun p => p == 11)) 3) :=
  ⟨by decide,
   (kill_tree_escalation 10 [11, 12] (fun p => p == 11)).2.2.2.2.2 (by decide)⟩

/-- Concrete run of the C8 theorem: a running server and an `is_running`
poll that immediately reports stopped; the worker trace ends with the
`__DO_START__` sentinel and the control loop maps that sentinel to the
Start call. -/
theorem restart_defers_start_to_control_loop_witness :
    (do_restart true (fun _ => false)).getLast? =
      some (RestartStep.emit "__DO_START__") ∧
    dispatch_line "__DO_START__" = [TickAction.invokeStart] :=
  ⟨(restart_defers_start_to_control_loop true (fun _ => false)).2.1,
   (restart_defers_start_to_control_loop true (fun _ => false)).2.2.2.2⟩

/-- Concrete run of the C10 theorem: the idle state never yields
`error` from the passive check. -/
theorem health_check_status_range_witness :
    (ServerManager.health_check { pid := none, hasProcess := false, starting := false }
      { alive := fun _ => false, pollExited := false }).ret ≠ "error" ∧
    (ServerManager.health_check { pid := none, hasProcess := false, starting := false }
      { alive := fun _ => false, pollExited := false }).ret ≠ "stopping" :=
  (health_check_status_range { pid := none, hasProcess := false, starting := false }
    { alive := fun _ => false, pollExited := false }).2
